import Mathlib

/-!
Verification of the chemfiles trajectory I/O engine specification.

The development shallowly embeds the program's components:
* the `Property` tagged union and `property_map` (from `src/Property.cpp`),
* the xz/LZMA compressed-file layer (container codec, text-file reading
  and writing, constructor error checks),
* the example-format (xyz) trajectory writer and the C-API frame handles.

Machine integers are modelled as `Nat`; byte buffers as `List Nat` with
every element a byte value; fallible operations return `Except`/`Option`.
-/

namespace Chemfiles

/-! ## Property: closed tagged union (from src/Property.cpp) -/

/-- Kinds of a `Property`, mirroring the `kind_` discriminant
(`BOOL`, `DOUBLE`, `STRING`, `VECTOR3D`). -/
inductive PropertyKind where
  | BOOL
  | DOUBLE
  | STRING
  | VECTOR3D
deriving DecidableEq

/-- A 3-vector of doubles, as stored in a `VECTOR3D` property. -/
structure Vector3D where
  x : Float
  y : Float
  z : Float

/-- The `Property` tagged union: exactly one of a bool, a double, a string
or a 3-vector, as in the C++ class with its `kind_` tag and payload
members `bool_`, `double_`, `string_`, `vector3d_`. -/
inductive Property where
  | bool_ (b : Bool)
  | double_ (d : Float)
  | string_ (s : String)
  | vector3d_ (v : Chemfiles.Vector3D)

/-- Error thrown by the checked-cast accessors of `Property`. -/
structure PropertyError where
  message : String
deriving DecidableEq

/-- The `kind_` discriminant of a property value. -/
def Property.kind : Property → PropertyKind
  | .bool_ _ => .BOOL
  | .double_ _ => .DOUBLE
  | .string_ _ => .STRING
  | .vector3d_ _ => .VECTOR3D

/-- `Property::kind_as_string`: the switch over `kind_` returning
"bool", "double", "string" or "Vector3D". -/
def Property.kind_as_string : Property → String
  | .bool_ _ => "bool"
  | .double_ _ => "double"
  | .string_ _ => "string"
  | .vector3d_ _ => "Vector3D"

/-- `Property::as_bool`: return `bool_` when `kind_ == BOOL`, otherwise
throw a `PropertyError` built from `kind_as_string`. -/
def Property.as_bool : Property → Except PropertyError Bool
  | .bool_ b => .ok b
  | p => .error ⟨"Tried to use 'as_bool' on a " ++ p.kind_as_string ++ " property"⟩

/-- `Property::as_double`: return `double_` when `kind_ == DOUBLE`,
otherwise throw a `PropertyError` built from `kind_as_string`. -/
def Property.as_double : Property → Except PropertyError Float
  | .double_ d => .ok d
  | p => .error ⟨"Tried to use 'as_double' on a " ++ p.kind_as_string ++ " property"⟩

/-- `Property::as_vector3d`: return `vector3d_` when `kind_ == VECTOR3D`,
otherwise throw a `PropertyError` built from `kind_as_string`. -/
def Property.as_vector3d : Property → Except PropertyError Chemfiles.Vector3D
  | .vector3d_ v => .ok v
  | p => .error ⟨"Tried to use 'as_vector3d' on a " ++ p.kind_as_string ++ " property"⟩

/-- `Property::as_string`: return `string_` when `kind_ == STRING`,
otherwise throw a `PropertyError` built from `kind_as_string`. -/
def Property.as_string : Property → Except PropertyError String
  | .string_ s => .ok s
  | p => .error ⟨"Tried to use 'as_string' on a " ++ p.kind_as_string ++ " property"⟩

/-- An accessor call failed with some `PropertyError`. -/
def accessorFails {α : Type} (r : Except PropertyError α) : Prop :=
  ∃ e : PropertyError, r = Except.error e

/-- Name of the accessor requesting a given kind, as it appears in the
error messages of `Property.cpp`. -/
def PropertyKind.accessorName : PropertyKind → String
  | .BOOL => "as_bool"
  | .DOUBLE => "as_double"
  | .STRING => "as_string"
  | .VECTOR3D => "as_vector3d"

/-- The `PropertyError` raised (if any) when accessing property `p`
through the accessor requesting kind `k`. -/
def Property.accessError (p : Property) (k : PropertyKind) : Option PropertyError :=
  match k with
  | .BOOL => match p.as_bool with | .error e => some e | .ok _ => none
  | .DOUBLE => match p.as_double with | .error e => some e | .ok _ => none
  | .STRING => match p.as_string with | .error e => some e | .ok _ => none
  | .VECTOR3D => match p.as_vector3d with | .error e => some e | .ok _ => none

/-! ## property_map (from src/Property.cpp) -/

/-- Lookup in the association-list model of `std::map<std::string, Property>`:
`property_map::get` delegates to this search by key equality. -/
def getEntry : List (String × Property) → String → Option Property
  | [], _ => none
  | kv :: rest, name => if kv.1 = name then some kv.2 else getEntry rest name

/-- Insert-or-assign in the association-list model, mirroring
`property_map::set`: `emplace` inserts when the key is absent, and on
failure (`!inserted.second`) the existing mapped value is overwritten. -/
def setEntry : List (String × Property) → String → Property → List (String × Property)
  | [], name, value => [(name, value)]
  | kv :: rest, name, value =>
    if kv.1 = name then (name, value) :: rest else kv :: setEntry rest name value

/-- The `property_map` wrapper over its `data_` map. -/
structure property_map where
  data_ : List (String × Property)

/-- `property_map::set(name, value)`: insert or overwrite (upsert). -/
def property_map.set (m : property_map) (name : String) (value : Property) : property_map :=
  ⟨setEntry m.data_ name value⟩

/-- `property_map::get(name)`: the stored value, or `none` when absent. -/
def property_map.get (m : property_map) (name : String) : Option Property :=
  getEntry m.data_ name

/-! ## Byte-level helpers for the xz compressed-file layer -/

/-- ASCII bytes of a string (all texts involved are plain ASCII). -/
def strBytes (s : String) : List Nat :=
  s.data.map Char.toNat

/-- One bit step of the reflected CRC-32 (polynomial 0xEDB88320), as used
by the xz container for header and index checksums. -/
def crc32Bit (crc : Nat) : Nat :=
  if crc % 2 = 1 then Nat.xor (crc / 2) 0xEDB88320 else crc / 2

/-- Feed one byte into a running CRC-32 state. -/
def crc32Update (crc b : Nat) : Nat :=
  crc32Bit^[8] (Nat.xor crc (b % 256))

/-- CRC-32 of a byte list (initial and final complement 0xFFFFFFFF). -/
def crc32 (data : List Nat) : Nat :=
  Nat.xor (data.foldl crc32Update 0xFFFFFFFF) 0xFFFFFFFF

/-- One bit step of the reflected CRC-64 (polynomial 0xC96C5795D7870F42),
the integrity check declared by the xz streams this program writes. -/
def crc64Bit (crc : Nat) : Nat :=
  if crc % 2 = 1 then Nat.xor (crc / 2) 0xC96C5795D7870F42 else crc / 2

/-- Feed one byte into a running CRC-64 state. -/
def crc64Update (crc b : Nat) : Nat :=
  crc64Bit^[8] (Nat.xor crc (b % 256))

/-- CRC-64 of a byte list (initial and final complement, all ones). -/
def crc64 (data : List Nat) : Nat :=
  Nat.xor (data.foldl crc64Update 0xFFFFFFFFFFFFFFFF) 0xFFFFFFFFFFFFFFFF

/-- Little-endian byte encoding of `n` on `w` bytes. -/
def leBytes (n : Nat) : Nat → List Nat
  | 0 => []
  | w + 1 => n % 256 :: leBytes (n / 256) w

/-- The 6-byte magic at the start of every `.xz` stream. -/
def xzMagic : List Nat := [0xfd, 0x37, 0x7a, 0x58, 0x5a, 0x00]

/-- Error kinds reported by the lzma codec wrapper: a container whose
magic/header is not `.xz` at all, a stream whose data fails validation,
and a stream using features outside what the wrapper handles. -/
inductive XzErrorKind where
  | format
  | corrupted
  | unsupported
deriving DecidableEq

/-- Error message attached to each lzma error kind, as produced from the
`lzma_ret` codes (`LZMA_FORMAT_ERROR` = 7, `LZMA_DATA_ERROR` = 9). -/
def XzErrorKind.message : XzErrorKind → String
  | .format => "lzma: input not in .xz format (code: 7)"
  | .corrupted => "lzma: compressed file is corrupted (code: 9)"
  | .unsupported => "lzma: unsupported options (code: 8)"

/-- Numeric `lzma_ret` code of each error kind. -/
def XzErrorKind.code : XzErrorKind → Nat
  | .format => 7
  | .corrupted => 9
  | .unsupported => 8

/-- Decode a sequence of LZMA2 chunks. The streams this program produces
store the payload in uncompressed chunks (control byte 1 or 2: a 2-byte
big-endian `size - 1` then `size` literal bytes), terminated by a zero
control byte; compressed chunks are outside the model and rejected.
Returns the decoded payload and the number of bytes consumed, including
the terminator. The first argument is recursion fuel. -/
def lzma2Decode : Nat → List Nat → Except XzErrorKind (List Nat × Nat)
  | 0, _ => .error .corrupted
  | _ + 1, [] => .error .corrupted
  | _ + 1, 0 :: _ => .ok ([], 1)
  | fuel + 1, c :: rest =>
    if c = 1 ∨ c = 2 then
      match rest with
      | s1 :: s2 :: tail =>
        let size := s1 * 256 + s2 + 1
        if size ≤ tail.length then
          match lzma2Decode fuel (tail.drop size) with
          | .ok (d, n) => .ok (tail.take size ++ d, 3 + size + n)
          | .error e => .error e
        else .error .corrupted
      | _ => .error .corrupted
    else .error .unsupported

/-- Modelled from the spec: in-memory one-shot xz decompression
(`xzinflate_in_place`, declared in `XzFile.hpp`; its implementation is
not part of the excerpt). Per the spec it is a pure function from a byte
buffer to the fully decompressed buffer, failing with the container
format error when the magic/header is wrong and with the corruption
error when validation fails after a valid header. The model parses the
`.xz` container: magic, stream-header flags with their CRC-32, the block
header with its CRC-32, LZMA2 uncompressed chunks, block padding, and
the CRC-64 integrity check of the decoded payload; the trailing index
and stream footer are not re-validated, and only the CRC-64 check type
(the one these streams declare) is handled. -/
def xzinflate_in_place (input : List Nat) : Except XzErrorKind (List Nat) :=
  if input.take 6 ≠ xzMagic then .error .format
  else if input.length < 24 then .error .corrupted
  else
    let flags := (input.drop 6).take 2
    if (input.drop 8).take 4 ≠ leBytes (crc32 flags) 4 then .error .corrupted
    else if flags ≠ [0x00, 0x04] then .error .unsupported
    else
      let hsizeByte := input.getD 12 0
      let hsize := (hsizeByte + 1) * 4
      if hsizeByte = 0 then .error .corrupted
      else if input.length < 12 + hsize then .error .corrupted
      else
        let header := (input.drop 12).take (hsize - 4)
        if (input.drop (12 + hsize - 4)).take 4 ≠ leBytes (crc32 header) 4 then
          .error .corrupted
        else
          let body := input.drop (12 + hsize)
          match lzma2Decode (body.length + 1) body with
          | .error e => .error e
          | .ok (payload, consumed) =>
            let pad := (4 - (hsize + consumed) % 4) % 4
            let rest := body.drop consumed
            if rest.take pad ≠ List.replicate pad 0 then .error .corrupted
            else if (rest.drop pad).take 8 ≠ leBytes (crc64 payload) 8 then
              .error .corrupted
            else .ok payload

/-- The literal xz-encoded buffer from the in-memory decompression test:
the `.xz` container holding the text "Test\n5467\n". -/
def xzTestBuffer : List Nat :=
  [0xfd, 0x37, 0x7a, 0x58, 0x5a, 0x00, 0x00, 0x04, 0xe6, 0xd6, 0xb4, 0x46,
   0x02, 0x00, 0x21, 0x01, 0x16, 0x00, 0x00, 0x00, 0x74, 0x2f, 0xe5, 0xa3,
   0x01, 0x00, 0x09, 0x54, 0x65, 0x73, 0x74, 0x0a, 0x35, 0x34, 0x36, 0x37,
   0x0a, 0x00, 0x00, 0x00, 0xbd, 0xb5, 0x7a, 0x14, 0x41, 0x54, 0x79, 0xbe,
   0x00, 0x01, 0x22, 0x0a, 0x15, 0x1a, 0xe1, 0x67, 0x1f, 0xb6, 0xf3, 0x7d,
   0x01, 0x00, 0x00, 0x00, 0x00, 0x04, 0x59, 0x5a]

/-! ## Writing an xz file -/

/-- Stream flags of the xz streams this program writes: no reserved bits,
check type 0x04 (CRC-64). -/
def xzStreamFlags : List Nat := [0x00, 0x04]

/-- Body of the single block header these streams carry: encoded header
size 0x02 (12 bytes), no extra flags, one LZMA2 filter (id 0x21) with a
1-byte property 0x16 (the 8 MiB dictionary of the default preset), then
padding to the encoded size. -/
def xzBlockHeaderBody : List Nat :=
  [0x02, 0x00, 0x21, 0x01, 0x16, 0x00, 0x00, 0x00]

/-- Variable-length integer encoding of the xz index (7 bits per byte,
little-endian, high bit marks continuation). Fuel-based recursion. -/
def xzMultibyteAux : Nat → Nat → List Nat
  | 0, _ => []
  | fuel + 1, n => if n < 128 then [n] else (n % 128 + 128) :: xzMultibyteAux fuel (n / 128)

/-- Variable-length integer encoding used in the xz index. -/
def xzMultibyte (n : Nat) : List Nat := xzMultibyteAux 10 n

/-- Modelled from the spec: the deterministic xz encoder behind a
`TextFile` opened with LZMA compression (implemented outside the excerpt
in `XzFile.cpp`). The spec requires byte-identical compressed output for
a given input and compression level; on the tiny payloads of the tests
the codec stores the data as a single uncompressed LZMA2 chunk. The
model emits the full `.xz` container: stream header, one block (header,
one uncompressed chunk holding the payload, terminator, padding, CRC-64
check), the index, and the stream footer. Valid for payloads of at most
65536 bytes (one chunk). -/
def xzdeflate (payload : List Nat) : List Nat :=
  let header := xzMagic ++ xzStreamFlags ++ leBytes (crc32 xzStreamFlags) 4
  let blockHeader := xzBlockHeaderBody ++ leBytes (crc32 xzBlockHeaderBody) 4
  let chunk := [0x01, (payload.length - 1) / 256, (payload.length - 1) % 256]
      ++ payload ++ [0x00]
  let blockPad := List.replicate ((4 - (blockHeader.length + chunk.length) % 4) % 4) 0
  let check := leBytes (crc64 payload) 8
  let unpadded := blockHeader.length + chunk.length + 8
  let indexBody := [0x00] ++ xzMultibyte 1 ++ xzMultibyte unpadded
      ++ xzMultibyte payload.length
  let indexPad := List.replicate ((4 - indexBody.length % 4) % 4) 0
  let index := indexBody ++ indexPad ++ leBytes (crc32 (indexBody ++ indexPad)) 4
  let footerFields := leBytes (index.length / 4 - 1) 4 ++ xzStreamFlags
  header ++ blockHeader ++ chunk ++ blockPad ++ check ++ index
    ++ leBytes (crc32 footerFields) 4 ++ footerFields ++ [0x59, 0x5a]

/-- Modelled from the spec: a `TextFile` opened in WRITE mode with LZMA
compression. `print` appends formatted text to the logical (decompressed)
stream; closing the file compresses the buffered text into the `.xz`
container on disk. -/
structure TextFileLzmaWriter where
  buffer : List Nat

/-- A fresh LZMA text file opened in WRITE mode. -/
def TextFileLzmaWriter.openWrite : TextFileLzmaWriter := ⟨[]⟩

/-- `TextFile::print`: append text to the logical stream. -/
def TextFileLzmaWriter.print (f : TextFileLzmaWriter) (s : String) : TextFileLzmaWriter :=
  ⟨f.buffer ++ strBytes s⟩

/-- Closing the writer: the bytes present in the file afterwards. -/
def TextFileLzmaWriter.close (f : TextFileLzmaWriter) : List Nat :=
  xzdeflate f.buffer

/-! ## Reading a (compressed) text file -/

/-- Modelled from the spec: the read-mode state of a compressed text
file — the decompressed logical stream plus a cursor, a byte offset in
that stream (`tellpos`/`seekpos` operate on it, not on the compressed
container). -/
structure TextFileReader where
  content : List Nat
  pos : Nat

/-- The line starting at byte offset `pos` of the logical stream, with
its trailing newline stripped. -/
def readlineAt (content : List Nat) (pos : Nat) : List Nat :=
  (content.drop pos).takeWhile (fun b => b ≠ 10)

/-- Cursor position after reading the line at `pos`: past the line and
its newline, clamped to the end of the stream. -/
def nextPos (content : List Nat) (pos : Nat) : Nat :=
  min (pos + (readlineAt content pos).length + 1) content.length

/-- `TextFile::readline`: the next line and the advanced file state. -/
def TextFileReader.readline (t : TextFileReader) : List Nat × TextFileReader :=
  (readlineAt t.content t.pos, ⟨t.content, nextPos t.content t.pos⟩)

/-- `TextFile::tellpos`: byte offset in the decompressed logical stream. -/
def TextFileReader.tellpos (t : TextFileReader) : Nat := t.pos

/-- `TextFile::seekpos`: set the cursor to a byte offset in the
decompressed logical stream. -/
def TextFileReader.seekpos (t : TextFileReader) (offset : Nat) : TextFileReader :=
  ⟨t.content, offset⟩

/-- `TextFile::eof`: no bytes remain after the cursor. -/
def TextFileReader.eof (t : TextFileReader) : Bool :=
  t.content.length ≤ t.pos

/-- Linear scan of `readline` calls from a given state, recording
`tellpos` before each line, until `eof`. Fuel-based recursion. -/
def scanAux : Nat → TextFileReader → List (Nat × List Nat)
  | 0, _ => []
  | fuel + 1, t =>
    if t.eof then []
    else (t.tellpos, t.readline.1) :: scanAux fuel t.readline.2

/-- All `(tellpos, line)` pairs produced by a linear scan of `readline`
calls from the start of the file. -/
def scanLines (content : List Nat) : List (Nat × List Nat) :=
  scanAux (content.length) ⟨content, 0⟩

/-- Scanning the lines of an xz-compressed text file: decompress, then
scan the decompressed logical stream. -/
def xzScanLines (input : List Nat) : Except XzErrorKind (List (Nat × List Nat)) :=
  (xzinflate_in_place input).map scanLines

/-! ## XzFile construction -/

/-- Open modes of `File` (`READ` = 'r', `WRITE` = 'w', `APPEND` = 'a'). -/
inductive FileMode where
  | READ
  | WRITE
  | APPEND
deriving DecidableEq

/-- The character naming each open mode in error messages. -/
def FileMode.asChar : FileMode → String
  | .READ => "r"
  | .WRITE => "w"
  | .APPEND => "a"

/-- Error thrown when a file cannot be opened. -/
structure FileError where
  message : String
deriving DecidableEq

/-- Modelled from the spec: the `XzFile` constructor checks (implemented
outside the excerpt in `XzFile.cpp`). Construction fails when `APPEND`
is requested — the xz compressed-block format does not support appending,
whatever the state of the file — and otherwise, for reads, when the path
cannot be opened. The filesystem is abstracted as the list of paths that
can be opened for reading. -/
def XzFile.openFile (readable : List String) (path : String) (mode : FileMode) :
    Except FileError Unit :=
  if mode = .APPEND then
    .error ⟨"appending (open mode '" ++ FileMode.asChar .APPEND ++ "') is not supported with xz files"⟩
  else if mode = .READ ∧ path ∉ readable then
    .error ⟨"could not open the file at '" ++ path ++ "'"⟩
  else .ok ()

/-! ## The example text format (xyz) and trajectory writing -/

/-- A topology handle as used by the binding test: the ordered list of
the names of its atoms (`chrp_topology` starts empty,
`chrp_topology_append` appends one atom). -/
structure CHRP_TOPOLOGY where
  atoms : List String

/-- A frame handle as used by the binding test: positions plus the atom
names of its topology. -/
structure CHRP_FRAME where
  positions : List (Nat × Nat × Nat)
  topology : List String

/-- Modelled from the spec: one `<name> <x> <y> <z>` atom line of the
example text format (coordinates in a numeric text representation; the
scenario uses whole numbers). -/
def xyzLine (name : String) (p : Nat × Nat × Nat) : String :=
  name ++ " " ++ toString p.1 ++ " " ++ toString p.2.1 ++ " " ++ toString p.2.2 ++ "\n"

/-- Modelled from the spec: serializing one frame in the example text
format (implemented outside the excerpt by the XYZ format plugin): a
decimal atom-count line, a comment line reading "Written by Chemharp",
then one atom line per atom. The count/comment header is re-emitted on
every write. -/
def xyzWriteFrame (frame : CHRP_FRAME) : String :=
  toString frame.positions.length ++ "\n" ++ "Written by Chemharp\n"
    ++ String.join (List.zipWith xyzLine frame.topology frame.positions)

/-- A trajectory opened in write mode on an example-format file: the
bytes written so far. -/
structure CHRP_TRAJECTORY where
  contents : String

/-- Modelled from the spec: `chrp_trajectory_open(path, "w")` starts from
an empty file. -/
def chrp_trajectory_open_w : CHRP_TRAJECTORY := ⟨""⟩

/-- Modelled from the spec: `write(frame)` appends the serialized frame
to the file, never rewriting earlier bytes. -/
def chrp_trajectory_write (t : CHRP_TRAJECTORY) (frame : CHRP_FRAME) : CHRP_TRAJECTORY :=
  ⟨t.contents ++ xyzWriteFrame frame⟩

/-! ## C API frame handles -/

/-- A `CHFL_FRAME` handle: the positions array is authoritative for the
atom count. -/
structure CHFL_FRAME where
  positions : List (Nat × Nat × Nat)

/-- Modelled from the spec: `chfl_frame(n)` constructs a frame holding
`n` atoms (the C API doc test asserts the argument is the initial atom
count); positions are zero-initialized. -/
def chfl_frame (natoms : Nat) : CHFL_FRAME :=
  ⟨List.replicate natoms (0, 0, 0)⟩

/-- `chfl_frame_atoms_count`: the number of atoms in the frame. -/
def chfl_frame_atoms_count (frame : CHFL_FRAME) : Nat :=
  frame.positions.length

/-- Modelled from the spec: `chfl_frame_remove(frame, i)` removes the
atom at index `i`, renumbering the following atoms down; an out-of-range
index is rejected. -/
def chfl_frame_remove (frame : CHFL_FRAME) (i : Nat) : Except String CHFL_FRAME :=
  if i < frame.positions.length then .ok ⟨frame.positions.eraseIdx i⟩
  else .error "out of bounds atomic index"

/-! ## Theorems -/

set_option maxRecDepth 40000

/-- Retrieval after upsert: the key written by `setEntry` maps to the new
value. -/
theorem getEntry_setEntry_same (l : List (String × Property)) (name : String)
    (value : Property) :
    getEntry (setEntry l name value) name = some value := by
  induction l with
  | nil => simp [setEntry, getEntry]
  | cons kv rest ih =>
    by_cases h : kv.1 = name
    · simp [setEntry, getEntry, h]
    · simp [setEntry, getEntry, h, ih]

/-- Upsert leaves every other key unchanged. -/
theorem getEntry_setEntry_other (l : List (String × Property)) (name other : String)
    (value : Property) (h : other ≠ name) :
    getEntry (setEntry l name value) other = getEntry l other := by
  induction l with
  | nil => simp [setEntry, getEntry, Ne.symm h]
  | cons kv rest ih =>
    by_cases hk : kv.1 = name
    · simp [setEntry, getEntry, hk, Ne.symm h]
    · simp [setEntry, getEntry, hk, ih]

/-- `getEntry` returns `none` exactly when the key is absent. -/
theorem getEntry_eq_none_iff (l : List (String × Property)) (name : String) :
    getEntry l name = none ↔ name ∉ l.map Prod.fst := by
  induction l with
  | nil => simp [getEntry]
  | cons kv rest ih =>
    by_cases h : kv.1 = name
    · simp [getEntry, h]
    · simp [getEntry, h, Ne.symm h, ih]

/-- Every `(offset, line)` pair recorded by the scan satisfies
`line = readlineAt content offset`. -/
theorem scanAux_mem (content : List Nat) :
    ∀ fuel pos off line, (off, line) ∈ scanAux fuel ⟨content, pos⟩ →
      line = readlineAt content off := by
  intro fuel
  induction fuel with
  | zero =>
    intro pos off line h
    simp [scanAux] at h
  | succ n ih =>
    intro pos off line h
    simp only [scanAux, TextFileReader.readline, TextFileReader.tellpos,
      TextFileReader.eof] at h
    split at h
    · simp at h
    · rcases List.mem_cons.mp h with h1 | h2
      · obtain ⟨h1a, h1b⟩ := Prod.mk.injEq .. ▸ h1
        rw [h1b, h1a]
      · exact ih _ _ _ h2

/-- Claim C1: writing, through a trajectory opened in write mode on an
example-format (xyz) file, first a frame of 4 He atoms all at (1,2,3)
and then the frame grown to 6 atoms all at (4,5,6), produces exactly the
two concatenated frames — a decimal count line, a "Written by Chemharp"
comment line, and one "He x y z" line per atom — the second write
appending and re-emitting the full count/comment header. -/
theorem xyz_two_frame_write_exact_bytes :
    (chrp_trajectory_write
        (chrp_trajectory_write chrp_trajectory_open_w
          ⟨List.replicate 4 (1, 2, 3), List.replicate 4 "He"⟩)
        ⟨List.replicate 6 (4, 5, 6), List.replicate 6 "He"⟩).contents =
      "4\nWritten by Chemharp\nHe 1 2 3\nHe 1 2 3\nHe 1 2 3\nHe 1 2 3\n" ++
      "6\nWritten by Chemharp\nHe 4 5 6\nHe 4 5 6\nHe 4 5 6\nHe 4 5 6\nHe 4 5 6\nHe 4 5 6\n"
    ∧ ∀ (t : CHRP_TRAJECTORY) (f : CHRP_FRAME),
        (chrp_trajectory_write t f).contents = t.contents ++ xyzWriteFrame f :=
  ⟨by decide, fun _ _ => rfl⟩

/-- Claim C2 counterexample: the literal xz-encoded buffer of the
in-memory decompression test holds 68 bytes, not 70 as the claim
states. -/
theorem xz_test_buffer_not_70_bytes :
    xzTestBuffer.length = 68 ∧ xzTestBuffer.length ≠ 70 := by decide

/-- Claim C2 (amended: the literal buffer is 68 bytes long, not 70):
one-shot xz decompression of the literal buffer returns exactly the
10-byte text "Test\n5467\n"; the same buffer with byte 23 zeroed fails
with the corruption kind and with byte 0 zeroed fails with the
container-format kind — two distinguishable failures with distinct
messages and codes. -/
theorem xz_inflate_roundtrip_and_error_kinds :
    xzinflate_in_place xzTestBuffer = .ok (strBytes "Test\n5467\n")
    ∧ (strBytes "Test\n5467\n").length = 10
    ∧ xzinflate_in_place (xzTestBuffer.set 23 0x00) = .error .corrupted
    ∧ xzinflate_in_place (xzTestBuffer.set 0 0x00) = .error .format
    ∧ XzErrorKind.corrupted ≠ XzErrorKind.format
    ∧ XzErrorKind.corrupted.message ≠ XzErrorKind.format.message
    ∧ XzErrorKind.corrupted.code ≠ XzErrorKind.format.code :=
  ⟨rfl, rfl, rfl, rfl, by decide, by decide, by decide⟩

/-- Claim C3: for every `Property` value, the accessor matching the
constructed kind succeeds and returns the stored value, and the other
three accessors fail with a `PropertyError` — a checked cast with no
silent coercion. -/
theorem property_kind_safety (p : Property) :
    match p with
    | .bool_ b => (Property.bool_ b).as_bool = .ok b
        ∧ accessorFails (Property.bool_ b).as_double
        ∧ accessorFails (Property.bool_ b).as_string
        ∧ accessorFails (Property.bool_ b).as_vector3d
    | .double_ d => (Property.double_ d).as_double = .ok d
        ∧ accessorFails (Property.double_ d).as_bool
        ∧ accessorFails (Property.double_ d).as_string
        ∧ accessorFails (Property.double_ d).as_vector3d
    | .string_ s => (Property.string_ s).as_string = .ok s
        ∧ accessorFails (Property.string_ s).as_bool
        ∧ accessorFails (Property.string_ s).as_double
        ∧ accessorFails (Property.string_ s).as_vector3d
    | .vector3d_ v => (Property.vector3d_ v).as_vector3d = .ok v
        ∧ accessorFails (Property.vector3d_ v).as_bool
        ∧ accessorFails (Property.vector3d_ v).as_double
        ∧ accessorFails (Property.vector3d_ v).as_string := by
  cases p <;> exact ⟨rfl, ⟨_, rfl⟩, ⟨_, rfl⟩, ⟨_, rfl⟩⟩

/-- Claim C4: `tellpos`/`seekpos` operate on byte offsets of the
decompressed logical stream: seeking to an offset recorded by a linear
scan of `readline` calls and reading returns exactly the line the scan
read there; and scanning the same logical content through the
xz-compressed representation yields the same lines with the same
`tellpos` offsets as scanning the uncompressed stream. -/
theorem text_offsets_in_decompressed_stream :
    (∀ content off line, (off, line) ∈ scanLines content →
      ((TextFileReader.mk content 0).seekpos off).readline.1 = line)
    ∧ (∀ input payload, xzinflate_in_place input = .ok payload →
      xzScanLines input = .ok (scanLines payload)) := by
  constructor
  · intro content off line h
    have hmem := scanAux_mem content content.length 0 off line h
    simpa [TextFileReader.seekpos, TextFileReader.readline] using hmem.symm
  · intro input payload h
    simp [xzScanLines, h, Except.map]

/-- Witness for claim C4 on the logical text "Test\n5467\n" and its
xz-compressed container. -/
theorem text_offsets_in_decompressed_stream_witness :
    ((5, strBytes "5467") ∈ scanLines (strBytes "Test\n5467\n")
      ∧ ((TextFileReader.mk (strBytes "Test\n5467\n") 0).seekpos 5).readline.1 =
          strBytes "5467")
    ∧ (xzinflate_in_place xzTestBuffer = .ok (strBytes "Test\n5467\n")
      ∧ xzScanLines xzTestBuffer = .ok (scanLines (strBytes "Test\n5467\n"))) :=
  ⟨⟨by decide, text_offsets_in_decompressed_stream.1 _ 5 _ (by decide)⟩,
   ⟨rfl, text_offsets_in_decompressed_stream.2 _ _ rfl⟩⟩

/-- Claim C5: writing the two lines "Test" and "5467" through a
`TextFile` opened in WRITE mode with LZMA compression produces, after
close, exactly the fixed 68-byte xz container of the test — the
compressed output is byte-identical for this input. -/
theorem xz_write_deterministic_exact_bytes :
    ((TextFileLzmaWriter.openWrite.print "Test\n").print (toString 5467 ++ "\n")).close =
      xzTestBuffer
    ∧ xzTestBuffer.length = 68 :=
  ⟨by decide, by decide⟩

/-- Claim C6: constructing an xz text file fails with a `FileError`
naming the path when the path cannot be opened for reading, and opening
in APPEND mode fails for every path — existing and valid included —
with a message naming the mode character 'a' and the xz codec. -/
theorem xzfile_constructor_errors :
    (∀ readable path, path ∉ readable →
      XzFile.openFile readable path .READ =
        .error ⟨"could not open the file at '" ++ path ++ "'"⟩)
    ∧ (∀ readable path,
      XzFile.openFile readable path .APPEND =
        .error ⟨"appending (open mode '" ++ "a" ++ "') is not supported with " ++
          "xz" ++ " files"⟩) := by
  constructor
  · intro readable path h
    simp [XzFile.openFile, h]
  · intro readable path
    rfl

/-- Witness for claim C6 at the paths of the constructor-error test:
a missing path in READ mode, and the existing valid container in APPEND
mode. -/
theorem xzfile_constructor_errors_witness :
    ("not existing" ∉ (["data/xyz/water.xyz.xz"] : List String)
      ∧ XzFile.openFile ["data/xyz/water.xyz.xz"] "not existing" .READ =
          .error ⟨"could not open the file at 'not existing'"⟩)
    ∧ XzFile.openFile ["data/xyz/water.xyz.xz"] "data/xyz/water.xyz.xz" .APPEND =
        .error ⟨"appending (open mode 'a') is not supported with xz files"⟩ :=
  ⟨⟨by decide, xzfile_constructor_errors.1 _ _ (by decide)⟩,
   xzfile_constructor_errors.2 _ _⟩

/-- Claim C7: a frame constructed with 42 atoms, after removing atom
indices 37, then 30, then 15 (each removal in range under the
renumber-down policy), has exactly 39 atoms. -/
theorem frame_remove_three_atoms_count :
    (do
      let f1 ← chfl_frame_remove (chfl_frame 42) 37
      let f2 ← chfl_frame_remove f1 30
      let f3 ← chfl_frame_remove f2 15
      pure (chfl_frame_atoms_count f3) : Except String Nat) = .ok 39 := rfl

/-- Claim C8: `property_map::set` is an upsert — after `set name value`,
`get name` returns the new value and every other key is unchanged — and
`property_map::get` returns `none` exactly when the name is absent,
absence being a normal result, not an error. -/
theorem property_map_set_get_upsert (m : property_map) (name other : String)
    (value : Property) :
    (m.set name value).get name = some value
    ∧ (other ≠ name → (m.set name value).get other = m.get other)
    ∧ (m.get name = none ↔ name ∉ m.data_.map Prod.fst) :=
  ⟨getEntry_setEntry_same _ _ _,
   fun h => getEntry_setEntry_other _ _ _ _ h,
   getEntry_eq_none_iff _ _⟩

/-- Witness for claim C8 on a one-entry map: overwriting key "a",
preservation of key "b", and absence of key "c". -/
theorem property_map_set_get_upsert_witness :
    ((property_map.mk [("a", .bool_ true)]).set "a" (.string_ "v")).get "a" =
      some (.string_ "v")
    ∧ ("b" ≠ "a"
      ∧ ((property_map.mk [("a", .bool_ true)]).set "a" (.string_ "v")).get "b" =
          (property_map.mk [("a", .bool_ true)]).get "b")
    ∧ ((property_map.mk [("a", .bool_ true)]).get "c" = none ↔
        "c" ∉ ([("a", Property.bool_ true)].map Prod.fst)) :=
  ⟨(property_map_set_get_upsert ⟨[("a", .bool_ true)]⟩ "a" "b" (.string_ "v")).1,
   ⟨by decide,
    (property_map_set_get_upsert ⟨[("a", .bool_ true)]⟩ "a" "b" (.string_ "v")).2.1
      (by decide)⟩,
   (property_map_set_get_upsert ⟨[("a", .bool_ true)]⟩ "c" "b" (.string_ "v")).2.2⟩

/-- Claim C9: a kind-mismatched accessor call raises a `PropertyError`
whose message names the expected kind through the accessor's name and
the actual stored kind as one of "bool", "double", "string",
"Vector3D". -/
theorem property_accessor_error_names_kinds (k : PropertyKind) (p : Property)
    (h : p.kind ≠ k) :
    p.accessError k =
      some ⟨"Tried to use '" ++ k.accessorName ++ "' on a " ++
        p.kind_as_string ++ " property"⟩
    ∧ p.kind_as_string ∈ ["bool", "double", "string", "Vector3D"] := by
  cases k <;> cases p <;> first
    | exact absurd rfl h
    | exact ⟨rfl, by simp [Property.kind_as_string]⟩

/-- Witness for claim C9: `as_bool` requested on a string property. -/
theorem property_accessor_error_names_kinds_witness :
    (Property.string_ "foo").kind ≠ PropertyKind.BOOL
    ∧ ((Property.string_ "foo").accessError .BOOL =
        some ⟨"Tried to use 'as_bool' on a string property"⟩
      ∧ (Property.string_ "foo").kind_as_string ∈
          ["bool", "double", "string", "Vector3D"]) :=
  ⟨by decide, property_accessor_error_names_kinds .BOOL (.string_ "foo") (by decide)⟩

/-- Claim C10: `chfl_frame(n)` yields a frame whose atom count, as
reported by `chfl_frame_atoms_count`, is exactly `n`. -/
theorem chfl_frame_initial_atom_count (n : Nat) :
    chfl_frame_atoms_count (chfl_frame n) = n := by
  simp [chfl_frame_atoms_count, chfl_frame]

end Chemfiles
